import Mathlib

/-!
Verification development for the notebook `VQE_Anderson_model.ipynb`
(Roscoff spring school tutorial).  The notebook is a straight-line
script that builds a single-impurity Anderson model Hamiltonian through
the external `qat` (myqlm) library, transforms it to a qubit observable,
defines two ansatz-circuit constructors, and runs VQE stacks.  We give a
shallow embedding of the circuit-building code, of the parameter cells,
of the job/stack objects, and of the top-level statement structure of
the notebook, and prove the frozen claims about them.
-/

namespace VQENb

/-! ### Gate, Program and Circuit model

The notebook imports `Program, RY` (and, in a toolbox, `RX, RZ, CNOT`)
from `qat.lang.AQASM`.  A `Program` accumulates allocated qubits,
declared variational variables and applied gates; `to_circ` freezes it
into a `Circuit`.  Gates reference a variational variable by its index
in the program variable list and a qubit by its wire number. -/

inductive Gate where
  | RY (theta : Nat) (q : Nat)
  | RX (theta : Nat) (q : Nat)
  | RZ (theta : Nat) (q : Nat)
  | CNOT (c : Nat) (t : Nat)
deriving DecidableEq

def Gate.isEntangling : Gate → Bool
  | Gate.CNOT _ _ => true
  | _ => false

structure Program where
  nbqbits : Nat
  varNames : List String
  gates : List Gate
deriving DecidableEq

def progInit : Program := ⟨0, [], []⟩

def Program.qalloc (p : Program) (n : Nat) : Program × List Nat :=
  ({ p with nbqbits := p.nbqbits + n }, (List.range n).map (fun i => p.nbqbits + i))

def Program.new_var (p : Program) (name : String) : Program × Nat :=
  ({ p with varNames := p.varNames ++ [name] }, p.varNames.length)

def Program.applyGate (p : Program) (g : Gate) : Program :=
  { p with gates := p.gates ++ [g] }

structure Circuit where
  nbqbits : Nat
  varNames : List String
  gates : List Gate
deriving DecidableEq

def Program.to_circ (p : Program) : Circuit := ⟨p.nbqbits, p.varNames, p.gates⟩

/-! ### construct_product_circ

Embedding of the notebook cell

  def construct_product_circ(nbqbits=4):
      prog = Program()
      reg = prog.qalloc(nbqbits)
      theta = [prog.new_var(float, backslash-theta_i) for i in range(nbqbits)]
      for ind in range(nbqbits):
          RY(theta[ind])(reg[ind])
      circ = prog.to_circ()
      return circ

The list comprehension threads `prog` through `new_var`, and the for
loop appends one RY gate per iteration; both are `List.foldl`. -/

def construct_product_circ (nbqbits : Nat := 4) : Circuit :=
  let prog0 := progInit
  let alloc := prog0.qalloc nbqbits
  let prog1 := alloc.1
  let reg := alloc.2
  let tfold := (List.range nbqbits).foldl
      (fun s i => ((Program.new_var s.1 ("\\theta_" ++ toString i)).1,
                   s.2 ++ [(Program.new_var s.1 ("\\theta_" ++ toString i)).2]))
      (prog1, ([] : List Nat))
  let prog2 := tfold.1
  let theta := tfold.2
  let prog3 := (List.range nbqbits).foldl
      (fun q ind => q.applyGate (Gate.RY (theta.getD ind 0) (reg.getD ind 0))) prog2
  prog3.to_circ

/-! ### construct_correlated_circ

Embedding of the intentionally incomplete fill-in cell

  def construct_correlated_circ(nbqbits=4, n_layers=3):
      prog = Program()
      reg = prog.qalloc(nbqbits)
      n_parameters = ...
      theta = [prog.new_var(float, backslash-theta_i) for i in range(n_parameters)]
      ind = 0
      for _ in range(nbqbits):
          RY(theta[ind])(reg[ind]); ind += 1
      for _ in range(n_layers):
          ...
      circ = prog.to_circ()
      return circ

In Python, `n_parameters = ...` binds the Ellipsis object, and
`range(n_parameters)` then raises a TypeError; the later bare `...`
inside the layer loop is an expression statement and a no-op.  We model
Python values that can be an int or Ellipsis, and `range` as a fallible
operation. -/

inductive PyVal where
  | intVal (n : Nat)
  | ellipsisVal
deriving DecidableEq

inductive PyErr where
  | typeError (msg : String)
deriving DecidableEq

def pyRange : PyVal → Except PyErr (List Nat)
  | PyVal.intVal n => Except.ok (List.range n)
  | PyVal.ellipsisVal =>
      Except.error (PyErr.typeError ("ellipsis object cannot be interpreted as an integer"))

def construct_correlated_circ (nbqbits : Nat := 4) (n_layers : Nat := 3) :
    Except PyErr Circuit := do
  let prog0 := progInit
  let alloc := prog0.qalloc nbqbits
  let prog1 := alloc.1
  let reg := alloc.2
  let n_parameters : PyVal := PyVal.ellipsisVal
  let idxs ← pyRange n_parameters
  let tfold := idxs.foldl
      (fun s i => ((Program.new_var s.1 ("\\theta_" ++ toString i)).1,
                   s.2 ++ [(Program.new_var s.1 ("\\theta_" ++ toString i)).2]))
      (prog1, ([] : List Nat))
  let prog2 := tfold.1
  let theta := tfold.2
  let prog3 := (List.range nbqbits).foldl
      (fun q ind => q.applyGate (Gate.RY (theta.getD ind 0) (reg.getD ind 0))) prog2
  let prog4 := (List.range n_layers).foldl (fun q _ => q) prog3
  return prog4.to_circ

/-! ### Fold characterization lemmas -/

set_option maxRecDepth 4000 in
theorem new_var_foldl (l : List Nat) (p : Program) (acc : List Nat) :
    l.foldl
      (fun s i => ((Program.new_var s.1 ("\\theta_" ++ toString i)).1,
                   s.2 ++ [(Program.new_var s.1 ("\\theta_" ++ toString i)).2]))
      (p, acc)
    = ({ p with varNames := p.varNames ++ l.map (fun i => "\\theta_" ++ toString i) },
       acc ++ (List.range l.length).map (fun j => p.varNames.length + j)) := by
  induction l generalizing p acc with
  | nil => simp
  | cons a t ih =>
      rw [List.foldl_cons, ih]
      simp only [Program.new_var]
      simp only [Prod.mk.injEq]
      constructor
      · simp [List.append_assoc]
      · simp [List.append_assoc, List.range_succ_eq_map, List.map_map, Function.comp,
              Nat.add_assoc, Nat.add_comm, Nat.add_left_comm]

theorem ry_foldl (l : List Nat) (theta reg : List Nat) (p : Program) :
    l.foldl (fun q ind => q.applyGate (Gate.RY (theta.getD ind 0) (reg.getD ind 0))) p
    = { p with gates :=
          p.gates ++ l.map (fun ind => Gate.RY (theta.getD ind 0) (reg.getD ind 0)) } := by
  induction l generalizing p with
  | nil => simp
  | cons a t ih =>
      rw [List.foldl_cons, ih]
      simp [Program.applyGate, List.append_assoc]

theorem range_getD_eq (n i : Nat) (h : i < n) : (List.range n).getD i 0 = i := by
  simp [List.getD_eq_getElem?_getD, List.getElem?_range h]

theorem construct_product_circ_eq (n : Nat) :
    construct_product_circ n
    = ⟨n, (List.range n).map (fun i => "\\theta_" ++ toString i),
         (List.range n).map (fun i => Gate.RY i i)⟩ := by
  simp only [construct_product_circ, progInit, Program.qalloc]
  rw [new_var_foldl]
  simp only [ry_foldl, Program.to_circ]
  simp [Circuit.mk.injEq]
  intro a ha
  simp [List.getElem?_range ha]

/-- Claim C7: for every nbqbits, construct_product_circ deterministically returns a
circuit on exactly nbqbits qubits whose gate list is exactly one RY rotation, reading
its own fresh parameter theta_i, applied to qubit i for each index i; hence nbqbits
gates, nbqbits free parameters, and no entangling (multi-qubit) gate. -/
theorem construct_product_circ_spec (n : Nat) :
    (construct_product_circ n).nbqbits = n ∧
    (construct_product_circ n).gates = (List.range n).map (fun i => Gate.RY i i) ∧
    (construct_product_circ n).gates.length = n ∧
    (construct_product_circ n).varNames
      = (List.range n).map (fun i => "\\theta_" ++ toString i) ∧
    (construct_product_circ n).varNames.length = n ∧
    (construct_product_circ n).gates.all (fun g => !g.isEntangling) = true := by
  rw [construct_product_circ_eq]
  refine ⟨rfl, rfl, by simp, rfl, by simp, ?_⟩
  simp [List.all_eq_true, Gate.isEntangling]

/-- Witness for construct_product_circ_spec at the default nbqbits = 4 of the source. -/
theorem construct_product_circ_spec_witness :
    (construct_product_circ 4).nbqbits = 4 ∧
    (construct_product_circ 4).gates = (List.range 4).map (fun i => Gate.RY i i) ∧
    (construct_product_circ 4).gates.length = 4 ∧
    (construct_product_circ 4).varNames
      = (List.range 4).map (fun i => "\\theta_" ++ toString i) ∧
    (construct_product_circ 4).varNames.length = 4 ∧
    (construct_product_circ 4).gates.all (fun g => !g.isEntangling) = true :=
  construct_product_circ_spec 4

/-- Claim C3: for every choice of the arguments nbqbits and n_layers, calling
construct_correlated_circ raises a TypeError instead of returning a circuit, because
n_parameters is left as the Ellipsis placeholder and the parameter list cannot be
built from range applied to it. -/
theorem construct_correlated_circ_raises (nbqbits n_layers : Nat) :
    construct_correlated_circ nbqbits n_layers
      = Except.error
          (PyErr.typeError ("ellipsis object cannot be interpreted as an integer")) := rfl

/-- Witness for construct_correlated_circ_raises at the default arguments of the source. -/
theorem construct_correlated_circ_raises_witness :
    construct_correlated_circ 4 3
      = Except.error
          (PyErr.typeError ("ellipsis object cannot be interpreted as an integer")) :=
  construct_correlated_circ_raises 4 3

/-! ### The SIAM parameter cells

Embedding of the two parameter cells.  The first cell binds U = 0, mu = U/2
(half-filling), V = [1], epsilon = [2] and calls
make_anderson_model(U, mu, V, epsilon); the second cell rebinds U = 1 and
mu = U/2, reuses V and epsilon, and calls make_anderson_model(U, mu, V, epsilon)
again.  Since Lean names are immutable, the successive bindings of U and mu are
named U_sec1/mu_sec1 and U_sec2/mu_sec2.  An AndersonArgs record holds the four
arguments of one make_anderson_model call, in the order they are passed. -/

structure AndersonArgs where
  U : ℚ
  mu : ℚ
  V : List ℚ
  epsilon : List ℚ
deriving DecidableEq

def U_sec1 : ℚ := 0

def mu_sec1 : ℚ := U_sec1 / 2

def V : List ℚ := [1]

def epsilon : List ℚ := [2]

def hamilt_0_args : AndersonArgs := ⟨U_sec1, mu_sec1, V, epsilon⟩

def U_sec2 : ℚ := 1

def mu_sec2 : ℚ := U_sec2 / 2

def hamilt_1_args : AndersonArgs := ⟨U_sec2, mu_sec2, V, epsilon⟩

def notebook_anderson_calls : List AndersonArgs := [hamilt_0_args, hamilt_1_args]

/-- Modelled from the spec: the Anderson impurity model couples one correlated
impurity site to one bath site per entry of V, and each site carries two spin
modes, so a call with V of length k describes 2 * (k + 1) fermionic modes (and as
many qubits after the Jordan-Wigner transform).  The mode counting itself happens
inside make_anderson_model in the external qat library. -/
def nbFermionicModes (a : AndersonArgs) : Nat := 2 * (a.V.length + 1)

/-- Claim C4: every construction of the SIAM Hamiltonian in the notebook passes
exactly U, mu, V, epsilon in that order to make_anderson_model, with V and epsilon
single-element lists, giving one bath site and hence four fermionic modes. -/
theorem anderson_calls_spec :
    notebook_anderson_calls
      = [⟨0, 0, [1], [2]⟩, ⟨1, 1/2, [1], [2]⟩] ∧
    notebook_anderson_calls.all
      (fun a => a.V.length == 1 && a.epsilon.length == 1 && nbFermionicModes a == 4)
      = true := by
  constructor
  · show [hamilt_0_args, hamilt_1_args] = _
    norm_num [hamilt_0_args, hamilt_1_args, U_sec1, mu_sec1, U_sec2, mu_sec2, V, epsilon]
  · decide

/-- Claim C9: between the U = 0 section and the U = 1 section only the interaction
strength changes: both make_anderson_model calls reuse V = [1] and epsilon = [2],
the chemical potential satisfies mu = U/2 in both sections, and the second call is
the first with only U and mu updated. -/
theorem only_interaction_changes :
    hamilt_1_args.V = hamilt_0_args.V ∧
    hamilt_1_args.epsilon = hamilt_0_args.epsilon ∧
    hamilt_0_args.mu = hamilt_0_args.U / 2 ∧
    hamilt_1_args.mu = hamilt_1_args.U / 2 ∧
    hamilt_1_args = { hamilt_0_args with U := U_sec2, mu := U_sec2 / 2 } :=
  ⟨rfl, rfl, rfl, rfl, rfl⟩

/-! ### Jobs, QPUs, plugins and stacks

Embedding of the optimizer cells.  A Job records the circuit it came from, the
observable handle passed as the observable keyword, and the nbshots keyword when
one is given (the source passes none for the baseline job and nbshots=1000 for the
shot-noise job).  QPUs and plugins are the library objects the notebook
instantiates; the pipe operator builds a Stack from plugins and a QPU. -/

structure Job where
  circuit : Circuit
  observable : String
  nbshots : Option Nat
deriving DecidableEq

def Circuit.to_job (c : Circuit) (observable : String)
    (nbshots : Option Nat := none) : Job :=
  ⟨c, observable, nbshots⟩

inductive QPU where
  | defaultQpu
  | pyLinalg
deriving DecidableEq

inductive Plugin where
  | scipyMinimize (method : String)
  | seqOptimP (ncycles : Nat)
  | multipleLaunches (n_runs : Nat)
  | depolarizing (prob_1qb : ℚ) (prob_2qb : ℚ)
deriving DecidableEq

structure Stack where
  plugins : List Plugin
  qpu : QPU
deriving DecidableEq

def orQ (p : Plugin) (q : QPU) : Stack := ⟨[p], q⟩

def orS (p : Plugin) (s : Stack) : Stack := ⟨p :: s.plugins, s.qpu⟩

def get_default_qpu : QPU := QPU.defaultQpu

def method : String := "BFGS"

def scipy_optimizer : Plugin := Plugin.scipyMinimize method

def qpu : QPU := get_default_qpu

def stack : Stack := orQ scipy_optimizer qpu

def circ : Circuit := construct_product_circ 4

def job : Job := circ.to_job ("h_spin_0")

def job_with_shot_noise : Job := circ.to_job ("h_spin_0_rotated") (some 1000)

def scipy_optimizer_cobyla : Plugin := Plugin.scipyMinimize ("COBYLA")

def scipy_optimizer_stack : Stack := orQ scipy_optimizer_cobyla qpu

/-- Modelled from the spec: shot noise is the statistical estimation error from
measuring a quantum state a finite number of times.  The evaluation behaviour
itself lives in the external myqlm library: a job submitted with no nbshots is
evaluated by the default emulator as an exact, noise-free expectation value, while
a job with nbshots = n estimates the expectation from n measurement shots. -/
inductive EvalMode where
  | exactExpectation
  | sampledShots (n : Nat)
deriving DecidableEq

def evalModeOf (j : Job) : EvalMode :=
  match j.nbshots with
  | none => EvalMode.exactExpectation
  | some n => EvalMode.sampledShots n

/-- Claim C5: shot noise is introduced solely at the job level: the shot-noise job
is created with nbshots = 1000, whereas the baseline job is created with no nbshots
argument and is evaluated as a noise-free exact expectation value on the default
emulator (both the baseline stack and the COBYLA shot-noise stack run on the
default noise-free emulator returned by get_default_qpu). -/
theorem shot_noise_only_via_nbshots :
    job_with_shot_noise.nbshots = some 1000 ∧
    job.nbshots = none ∧
    evalModeOf job = EvalMode.exactExpectation ∧
    evalModeOf job_with_shot_noise = EvalMode.sampledShots 1000 ∧
    stack.qpu = QPU.defaultQpu ∧
    scipy_optimizer_stack.qpu = QPU.defaultQpu :=
  ⟨rfl, rfl, rfl, rfl, rfl, rfl⟩

/-! ### The reference ground-state energies

Embedding of E0_U0 = eigvals[0] and E0_U1 = eigvals[0], where eigvals is the
eigenvalue array returned by np.linalg.eigh on the dense Hamiltonian matrix.  The
diagonalization is library code; the notebook itself only takes entry 0. -/

def E0_from_eigvals (eigvals : List ℚ) : Option ℚ := eigvals[0]?

/-- Claim C6: the reference energy is defined as the first entry of the eigh
eigenvalue array; since eigh returns eigenvalues in ascending order (a guarantee of
the external numpy library, taken as a hypothesis here), that first entry is the
minimum eigenvalue. -/
theorem E0_from_eigvals_is_min (l : List ℚ) (hs : l.Sorted (· ≤ ·)) (hne : l ≠ []) :
    E0_from_eigvals l = some (l.head hne) ∧ ∀ x ∈ l, l.head hne ≤ x := by
  cases l with
  | nil => cases hne rfl
  | cons a t =>
      refine ⟨by simp [E0_from_eigvals], ?_⟩
      intro x hx
      rcases List.mem_cons.mp hx with h | h
      · exact le_of_eq h.symm
      · exact (List.sorted_cons.mp hs).1 x h

/-- Witness for E0_from_eigvals_is_min at a concrete ascending spectrum. -/
theorem E0_from_eigvals_is_min_witness :
    E0_from_eigvals [-3, 1, 2] = some (-3) ∧ ∀ x ∈ ([-3, 1, 2] : List ℚ), -3 ≤ x := by
  have h := E0_from_eigvals_is_min ([-3, 1, 2] : List ℚ) (by decide) (by decide)
  simpa using h

/-! ### Top-level statement structure of the notebook

For the structural claims we embed the executable top-level statements of the
code cells, in order, as an abstract syntax.  Comment-only cells (the commented
pip installs and the empty fill-in cells) contribute no statement.  Each
constructor records the names a reviewer needs to match the statement against
the source; unused constructors (classDef, controlFlow) witness that the
corresponding statement forms do not occur at the top level. -/

inductive Stmt where
  | importNames (module : String) (names : List String)
  | importAlias (module : String) (asName : String)
  | importPlain (module : String)
  | assignNumLit (lhs : String) (v : ℚ)
  | assignHalf (lhs : String) (rhs : String)
  | assignNumList (lhs : String) (vs : List ℚ)
  | assignStrLit (lhs : String) (v : String)
  | assignCall (lhs : String) (callee : String) (args : List String)
  | assignPairCall (lhs1 : String) (lhs2 : String) (callee : String) (args : List String)
  | assignMethodCall (lhs : String) (receiver : String) (meth : String) (args : List String)
  | assignCompose (lhs : String) (operands : List String)
  | assignIndexZero (lhs : String) (arr : String)
  | assignMetaData (lhs : String) (res : String) (key : String)
  | printCall (args : List String)
  | plotCall (fn : String) (args : List String)
  | funcDef (name : String) (externals : List String)
  | classDef (name : String)
  | displayMagic (target : String)
  | controlFlow (desc : String)
deriving DecidableEq

def notebookStmts : List Stmt := [
  Stmt.importAlias ("numpy") ("np"),
  Stmt.importPlain ("copy"),
  Stmt.importAlias ("matplotlib.pyplot") ("plt"),
  Stmt.importNames ("qat.fermion.hamiltonians")
    ["make_anderson_model", "ElectronicStructureHamiltonian"],
  Stmt.importNames ("qat.fermion.transforms") ["transform_to_jw_basis"],
  Stmt.importNames ("qat.lang.AQASM") ["Program", "RY"],
  Stmt.importNames ("qat.plugins")
    ["ScipyMinimizePlugin", "SeqOptim", "MultipleLaunchesAnalyzer"],
  Stmt.importNames ("qat.qpus") ["get_default_qpu"],
  Stmt.importNames ("qat.fermion.chemistry.ucc") ["transform_integrals_to_new_basis"],
  Stmt.importNames ("qat.lang.AQASM") ["RX", "RZ", "CNOT"],
  Stmt.assignNumLit ("U") 0,
  Stmt.assignHalf ("mu") ("U"),
  Stmt.assignNumList ("V") [1],
  Stmt.assignNumList ("epsilon") [2],
  Stmt.assignCall ("hamilt_0") ("make_anderson_model") ["U", "mu", "V", "epsilon"],
  Stmt.assignMethodCall ("h_mat_0") ("hamilt_0") ("get_matrix") [],
  Stmt.assignPairCall ("eigvals") ("eigvecs") ("np.linalg.eigh") ["h_mat_0"],
  Stmt.assignIndexZero ("E0_U0") ("eigvals"),
  Stmt.printCall ["E0 at U=0:", "E0_U0"],
  Stmt.printCall ["hamilt_0.hpq"],
  Stmt.assignCall ("h_spin_0") ("transform_to_jw_basis") ["hamilt_0"],
  Stmt.funcDef ("construct_product_circ") ["Program", "RY"],
  Stmt.assignCall ("circ") ("construct_product_circ") [],
  Stmt.displayMagic ("circ"),
  Stmt.assignStrLit ("method") ("BFGS"),
  Stmt.assignCall ("scipy_optimizer") ("ScipyMinimizePlugin") ["method"],
  Stmt.assignCall ("qpu") ("get_default_qpu") [],
  Stmt.assignCompose ("stack") ["scipy_optimizer", "qpu"],
  Stmt.assignMethodCall ("job") ("circ") ("to_job") ["h_spin_0"],
  Stmt.assignMethodCall ("res") ("stack") ("submit") ["job"],
  Stmt.printCall ["res.value"],
  Stmt.assignMetaData ("VQE_trace") ("res") ("optimization_trace"),
  Stmt.plotCall ("axhline") ["E0_U0"],
  Stmt.plotCall ("plot") ["VQE_trace"],
  Stmt.plotCall ("grid") [],
  Stmt.plotCall ("xlabel") ["optimization step"],
  Stmt.plotCall ("ylabel") ["energy"],
  Stmt.plotCall ("legend") [],
  Stmt.assignCall ("multiplier") ("MultipleLaunchesAnalyzer") ["n_runs=10"],
  Stmt.assignCompose ("multiple_launches_stack") ["multiplier", "stack"],
  Stmt.assignMethodCall ("res") ("multiple_launches_stack") ("submit") ["job"],
  Stmt.importNames ("qat.fermion.hamiltonians") ["ElectronicStructureHamiltonian"],
  Stmt.assignMethodCall ("h_spin_0_rotated") ("ElectronicStructureHamiltonian")
    ("load") ["h_spin_0_rotated"],
  Stmt.assignMethodCall ("job_with_shot_noise") ("circ")
    ("to_job") ["h_spin_0_rotated", "nbshots=1000"],
  Stmt.assignCall ("scipy_optimizer") ("ScipyMinimizePlugin") ["method=COBYLA"],
  Stmt.assignCompose ("scipy_optimizer_stack") ["scipy_optimizer", "qpu"],
  Stmt.assignMethodCall ("scipy_res") ("scipy_optimizer_stack")
    ("submit") ["job_with_shot_noise"],
  Stmt.plotCall ("axhline") ["E0_U0"],
  Stmt.plotCall ("plot") ["scipy_res.meta_data"],
  Stmt.plotCall ("grid") [],
  Stmt.plotCall ("xlabel") ["optimization step"],
  Stmt.plotCall ("ylabel") ["energy"],
  Stmt.plotCall ("legend") [],
  Stmt.assignCall ("seq_optim") ("SeqOptim") ["ncycles=10"],
  Stmt.assignCompose ("seq_optimizer_stack") ["seq_optim", "qpu"],
  Stmt.assignNumLit ("U") 1,
  Stmt.assignHalf ("mu") ("U"),
  Stmt.assignCall ("hamilt_1") ("make_anderson_model") ["U", "mu", "V", "epsilon"],
  Stmt.assignMethodCall ("h_mat_1") ("hamilt_1") ("get_matrix") [],
  Stmt.assignPairCall ("eigvals") ("eigvecs") ("np.linalg.eigh") ["h_mat_1"],
  Stmt.assignIndexZero ("E0_U1") ("eigvals"),
  Stmt.printCall ["E0 at U=1:", "E0_U1"],
  Stmt.assignCall ("h_spin_1") ("transform_to_jw_basis") ["hamilt_1"],
  Stmt.funcDef ("construct_correlated_circ") ["Program", "RY"],
  Stmt.importNames ("qat.qpus") ["PyLinalg"],
  Stmt.importNames ("depolarizing_plugin") ["DepolarizingPluginVec", "make_matrix"],
  Stmt.assignCall ("qpu") ("PyLinalg") [],
  Stmt.assignCall ("depol_plugin") ("DepolarizingPluginVec")
    ["prob_1qb=0.001", "prob_2qb=0.01"],
  Stmt.assignCompose ("depol_qpu") ["depol_plugin", "qpu"],
  Stmt.assignCompose ("depol_scipy_optimizer_stack")
    ["scipy_optimizer", "depol_plugin", "qpu"]]

def importedNamesOf : Stmt → List String
  | Stmt.importNames _ ns => ns
  | Stmt.importAlias _ a => [a]
  | Stmt.importPlain m => [m]
  | _ => []

def importedNames : List String := notebookStmts.flatMap importedNamesOf

def rootName (s : String) : String := String.mk (s.data.takeWhile (fun c => c != '.'))

def localFunDefs : List String :=
  notebookStmts.flatMap (fun s => match s with
    | Stmt.funcDef n _ => [n]
    | _ => [])

def localClassDefs : List String :=
  notebookStmts.flatMap (fun s => match s with
    | Stmt.classDef n => [n]
    | _ => [])

def lhsNamesOf : Stmt → List String
  | Stmt.assignNumLit l _ => [l]
  | Stmt.assignHalf l _ => [l]
  | Stmt.assignNumList l _ => [l]
  | Stmt.assignStrLit l _ => [l]
  | Stmt.assignCall l _ _ => [l]
  | Stmt.assignPairCall l1 l2 _ _ => [l1, l2]
  | Stmt.assignMethodCall l _ _ _ => [l]
  | Stmt.assignCompose l _ => [l]
  | Stmt.assignIndexZero l _ => [l]
  | Stmt.assignMetaData l _ _ => [l]
  | _ => []

def boundNames : List String :=
  importedNames ++ localFunDefs ++ notebookStmts.flatMap lhsNamesOf

def libraryOnlyFunDefs : List String :=
  notebookStmts.flatMap (fun s => match s with
    | Stmt.funcDef n ext => if ext.all (fun e => importedNames.contains e) then [n] else []
    | _ => [])

def isThinStmt : Stmt → Bool
  | Stmt.importNames _ _ => true
  | Stmt.importAlias _ _ => true
  | Stmt.importPlain _ => true
  | Stmt.assignNumLit _ _ => true
  | Stmt.assignHalf _ _ => true
  | Stmt.assignNumList _ _ => true
  | Stmt.assignStrLit _ _ => true
  | Stmt.assignCall _ callee _ =>
      importedNames.contains (rootName callee) || libraryOnlyFunDefs.contains callee
  | Stmt.assignPairCall _ _ callee _ => importedNames.contains (rootName callee)
  | Stmt.assignMethodCall _ recv _ _ => boundNames.contains (rootName recv)
  | Stmt.assignCompose _ ops => ops.all (fun o => boundNames.contains o)
  | Stmt.assignIndexZero _ arr => boundNames.contains arr
  | Stmt.assignMetaData _ r _ => boundNames.contains r
  | Stmt.printCall _ => true
  | Stmt.plotCall _ _ => true
  | Stmt.funcDef _ ext => ext.all (fun e => importedNames.contains e)
  | Stmt.classDef _ => false
  | Stmt.displayMagic _ => true
  | Stmt.controlFlow _ => false

def isControlFlow : Stmt → Bool
  | Stmt.controlFlow _ => true
  | _ => false

def numericParamLhs : Stmt → List String
  | Stmt.assignNumLit l _ => [l]
  | Stmt.assignHalf l _ => [l]
  | Stmt.assignNumList l _ => [l]
  | _ => []

def importModuleOf (name : String) : Option String :=
  (notebookStmts.filterMap (fun s => match s with
    | Stmt.importNames m ns => if ns.contains name then some m else none
    | Stmt.importAlias m a => if a == name then some m else none
    | Stmt.importPlain m => if m == name then some m else none
    | _ => none)).head?

def structuredFromLibrary : Stmt → Bool
  | Stmt.assignCall _ callee _ =>
      importedNames.contains (rootName callee) || libraryOnlyFunDefs.contains callee
  | Stmt.assignPairCall _ _ callee _ => importedNames.contains (rootName callee)
  | Stmt.assignMethodCall _ recv _ _ => boundNames.contains (rootName recv)
  | Stmt.assignCompose _ ops => ops.all (fun o => boundNames.contains o)
  | Stmt.assignIndexZero _ arr => boundNames.contains arr
  | Stmt.assignMetaData _ r _ => boundNames.contains r
  | _ => true

/-- Claim C1: the executable logic of the notebook is a thin straight-line script:
every top-level statement is an import, a parameter assignment — the numeric ones
binding only U, mu, V, epsilon — a call into the imported library (possibly through
one of the two ansatz constructors, whose bodies themselves invoke only imported
library primitives), a pipe composition of already-bound plugin objects, a read of
result metadata, a print or plot of returned values, or a display magic; no
top-level control flow or class definition occurs, so the notebook implements no
algorithm of its own. -/
theorem notebook_is_thin_script :
    notebookStmts.all isThinStmt = true ∧
    (notebookStmts.flatMap numericParamLhs).all
      (fun n => ["U", "mu", "V", "epsilon"].contains n) = true ∧
    notebookStmts.all (fun s => !isControlFlow s) = true := by decide

/-- Claim C2: all noise modeling is delegated to code outside the repository: the
notebook defines no class and no function of its own apart from the two ansatz
constructors (in particular no noise model), and the depolarizing noise of the
hardware-noise section enters only through the import of DepolarizingPluginVec
from the external module depolarizing_plugin shipped with the library. -/
theorem noise_modeling_delegated :
    importModuleOf ("DepolarizingPluginVec") = some ("depolarizing_plugin") ∧
    importedNames.contains ("DepolarizingPluginVec") = true ∧
    localFunDefs.contains ("DepolarizingPluginVec") = false ∧
    localClassDefs = [] ∧
    localFunDefs = ["construct_product_circ", "construct_correlated_circ"] := by decide

/-- Claim C8: no data model originates in the notebook: it defines no class, its
only locally defined functions are the two ansatz-circuit constructors, and every
structured value bound by a statement comes from a call into the imported library
(possibly through those two constructors), from the pipe composition of such
values, or from indexing into values the library returned. -/
theorem no_local_data_model :
    localClassDefs = [] ∧
    localFunDefs = ["construct_product_circ", "construct_correlated_circ"] ∧
    notebookStmts.all structuredFromLibrary = true := by decide

end VQENb
